import Mathlib

/-!
# Shallow embedding of the IAB330 BLE motion-prediction scripts

This file embeds the Python scripts of the IAB330 repository:

* `rpi_data_collector_code/node_collection_code.py` (`NodeCollection`)
* `rpi_application_code/rpi_application_code.py` (`RpiApplication`)
* `rpi_application_code/combine_data.py` (`CombineData`)
* `sketch_oct8a/live_predictor.py` (`LivePredictor`)
* `sketch_oct8a/train_best_model.py` (`TrainBestModel`)

Pure fragments become Lean functions; the mutable globals of the scripts
(`prediction_count`, `buffer`) become explicit state that each handler takes
and returns; printing becomes an explicit list of `PrintEvent`s; exceptions
become `Except`/`Option` results.  The scikit-learn classifier, scaler and
label-encoder objects are opaque library values, so they enter the embedding
as function parameters; the notification pipeline only composes them.
-/

/-! ## Models of the Python string and numeric-literal primitives

The scripts manipulate payloads with `str.strip`, `str.split(',')`,
`str.replace(" ", "")`, `str.lower`, `float(...)` and `int(...)`.  These
are modelled here over `List Char` so that every definition reduces in the
kernel.  The numeric models cover plain decimal literals (optional sign,
digits, optional fractional part), the grammar produced by the Arduino
firmware; Python extras such as exponents, underscores, `inf`/`nan` are out
of scope for every payload the claims quantify over.
-/

/-- The ASCII whitespace stripped by Python `str.strip()`. -/
def isPySpace (c : Char) : Bool :=
  c = ' ' || c = '\t' || c = '\n' || c = '\r' || c = '\x0b' || c = '\x0c'

/-- Strip leading and trailing whitespace from a character list. -/
def stripList (l : List Char) : List Char :=
  ((l.dropWhile isPySpace).reverse.dropWhile isPySpace).reverse

/-- Model of Python `s.strip()`. -/
def pyStrip (s : String) : String := String.mk (stripList s.toList)

/-- Split a character list at every occurrence of `sep`, keeping empty parts,
exactly like Python `s.split(sep)` for a one-character separator. -/
def splitList (sep : Char) : List Char → List (List Char)
  | [] => [[]]
  | c :: cs =>
    if c = sep then [] :: splitList sep cs
    else
      match splitList sep cs with
      | [] => [[c]]
      | h :: t => (c :: h) :: t

/-- Model of Python `s.split(sep)` for a one-character separator. -/
def pySplit (sep : Char) (s : String) : List String :=
  (splitList sep s.toList).map String.mk

/-- Model of Python `s.replace(" ", "")`: removing every space character. -/
def pyRemoveSpaces (s : String) : String :=
  String.mk (s.toList.filter (fun c => c ≠ ' '))

/-- ASCII lower-casing of one character, as Python `str.lower` acts on the
ASCII labels used in this repository. -/
def lowerChar (c : Char) : Char :=
  if 'A' ≤ c && c ≤ 'Z' then Char.ofNat (c.toNat + 32) else c

/-- Model of Python `s.lower()` on ASCII strings. -/
def pyLower (s : String) : String := String.mk (s.toList.map lowerChar)

/-- Does the pattern occur as a contiguous substring?  Models Python
`pat in s`. -/
def headMatches : List Char → List Char → Bool
  | [], _ => true
  | _ :: _, [] => false
  | p :: ps, c :: cs => p = c && headMatches ps cs

/-- Substring occurrence over character lists. -/
def occursList (pat : List Char) : List Char → Bool
  | [] => pat.isEmpty
  | c :: cs => headMatches pat (c :: cs) || occursList pat cs

/-- Model of Python `pat in s` for strings. -/
def occursIn (pat s : String) : Bool := occursList pat.toList s.toList

/-- Numeric value of a decimal digit character. -/
def digitVal (c : Char) : Nat := c.toNat - 48

/-- Parse a non-empty all-digit character list to its value; `none` otherwise. -/
def decDigits? (l : List Char) : Option Nat :=
  if !l.isEmpty && l.all Char.isDigit then
    some (l.foldl (fun a c => a * 10 + digitVal c) 0)
  else none

/-- A parsed Python `float` literal, kept in exact decimal form:
the value is `(-1)^neg * mant / 10^exp`.  The notification pipeline never
computes with the features, it only routes them into the opaque
scikit-learn objects, so this exact representation is faithful. -/
structure PyFloat where
  neg : Bool
  mant : Nat
  exp : Nat
  deriving DecidableEq, Repr

/-- Parse the unsigned magnitude of a decimal literal: `digits`, `digits.`,
`digits.digits` or `.digits`.  Returns the scaled mantissa and the number of
fractional digits. -/
def pyNumMag? (l : List Char) : Option (Nat × Nat) :=
  let ip := l.takeWhile Char.isDigit
  match l.dropWhile Char.isDigit with
  | [] =>
    if ip.isEmpty then none
    else some (ip.foldl (fun a c => a * 10 + digitVal c) 0, 0)
  | '.' :: fp =>
    if fp.all Char.isDigit && (!ip.isEmpty || !fp.isEmpty) then
      some ((ip ++ fp).foldl (fun a c => a * 10 + digitVal c) 0, fp.length)
    else none
  | _ => none

/-- Model of Python `float(s)`: strip whitespace, optional sign, decimal
magnitude.  `none` models the `ValueError` raised on rejection. -/
def pyFloat? (s : String) : Option PyFloat :=
  match (pyStrip s).toList with
  | '+' :: r => (pyNumMag? r).map (fun p => ⟨false, p.1, p.2⟩)
  | '-' :: r => (pyNumMag? r).map (fun p => ⟨true, p.1, p.2⟩)
  | l => (pyNumMag? l).map (fun p => ⟨false, p.1, p.2⟩)

/-- Model of Python `int(s)`: strip whitespace, optional sign, digits only —
in particular `int("0.5")` raises, modelled as `none`. -/
def pyInt? (s : String) : Option Int :=
  match (pyStrip s).toList with
  | '+' :: r => (decDigits? r).map Int.ofNat
  | '-' :: r => (decDigits? r).map (fun n => -(n : Int))
  | l => (decDigits? l).map Int.ofNat

/-! ## Payloads, decoding and printing -/

/-- A BLE notification payload.  `text` is the character content
(the result of decoding with `errors="ignore"`); `validUtf8` records
whether a strict `bytes.decode("utf-8")` succeeds on the raw bytes. -/
structure Payload where
  text : String
  validUtf8 : Bool
  deriving DecidableEq, Repr

/-- Model of strict `bytes.decode("utf-8")`: raises (`Except.error`)
exactly on invalid UTF-8. -/
def strictDecode (p : Payload) : Except String String :=
  if p.validUtf8 then Except.ok p.text else Except.error "UnicodeDecodeError"

/-- The console lines a handler can produce, abstracted to the information
the claims are about. -/
inductive PrintEvent where
  /-- The `[notify] ...` echo of the raw message. -/
  | notifyLine (msg : String)
  /-- Any `Error ...` / `Insert failed` diagnostic line. -/
  | errorLine (msg : String)
  /-- The `Predicted: ...` line of the application handler. -/
  | predictedLine (label : String)
  /-- The prediction line of the live predictor (predicted and received label). -/
  | liveLine (prediction : String) (actual : String)
  /-- The `Inserted n docs` line of the collector. -/
  | insertedLine (n : Nat)
  /-- The periodic `Sample features` debug line of the live predictor. -/
  | debugLine
  deriving DecidableEq, Repr

/-- Is this line an error diagnostic? -/
def PrintEvent.isError : PrintEvent → Bool
  | .errorLine _ => true
  | _ => false

/-- Does this line announce a prediction? -/
def PrintEvent.isPrediction : PrintEvent → Bool
  | .predictedLine _ => true
  | .liveLine _ _ => true
  | _ => false

/-! ## `rpi_data_collector_code/node_collection_code.py` -/

namespace NodeCollection

/-- The document stored for one reading (`measured_at` is wall-clock time and
is left out of the model). -/
structure ReadingDoc where
  raw : String
  data : List String
  deriving DecidableEq, Repr

/-- `[p for p in text.replace(" ", "").split(",") if p]`. -/
def fields (text : String) : List String :=
  (pySplit ',' (pyRemoveSpaces text)).filter (fun q => q ≠ "")

/-- `parse_reading` of `node_collection_code.py`: strict-decode the payload,
strip it, split into non-empty comma-separated fields; build a document only
when there are exactly 20 fields.  The function's own `try/except` turns any
exception (for example the decode error) into `None`, silently. -/
def parse_reading (p : Payload) : Option ReadingDoc :=
  match strictDecode p with
  | Except.error _ => none
  | Except.ok t =>
    let text := pyStrip t
    let parts := fields text
    if parts.length = 20 then some ⟨text, parts⟩ else none

/-- The collector's insertion batch size. -/
def BATCH_SIZE : Nat := 1

/-- `handle_notify` of `node_collection_code.py`.  The global `buffer` list is
threaded as explicit state; the MongoDB `insert_many` call is a parameter
that may raise (`Except.error`).  Returns the new buffer and the printed
lines. -/
def handle_notify (insert : List ReadingDoc → Except String Unit)
    (buffer : List ReadingDoc) (p : Payload) :
    List ReadingDoc × List PrintEvent :=
  let msg := pyStrip p.text
  match parse_reading p with
  | none => (buffer, [PrintEvent.notifyLine msg])
  | some doc =>
    let buf := buffer ++ [doc]
    if BATCH_SIZE ≤ buf.length then
      match insert buf with
      | Except.ok _ =>
        ([], [PrintEvent.notifyLine msg, PrintEvent.insertedLine buf.length])
      | Except.error e =>
        ([], [PrintEvent.notifyLine msg, PrintEvent.errorLine e])
    else (buf, [PrintEvent.notifyLine msg])

end NodeCollection

/-! ## `rpi_application_code/rpi_application_code.py` -/

namespace RpiApplication

/-- `[p for p in msg.replace(" ", "").split(",") if p]`. -/
def parts (msg : String) : List String :=
  (pySplit ',' (pyRemoveSpaces msg)).filter (fun q => q ≠ "")

/-- `handle_notify` of `rpi_application_code.py`.  The loaded scikit-learn
objects are parameters: `scaler` is `scaler.transform` on one row, `model` is
`model.predict` on one row, `inverse` is
`label_encoder.inverse_transform` on one index.  Decoding uses
`errors="ignore"`, which never raises, so it is the identity on `p.text`.
The `try` block turns a float-conversion failure into an error line;
fewer than 18 fields prints an error and returns without predicting. -/
def handle_notify (scaler : List PyFloat → List PyFloat)
    (model : List PyFloat → Int) (inverse : Int → String)
    (p : Payload) : List PrintEvent :=
  let msg := pyStrip p.text
  let ps := parts msg
  PrintEvent.notifyLine msg ::
    (if ps.length < 18 then
      [PrintEvent.errorLine "Expected at least 18 features"]
    else
      match (ps.take 18).mapM pyFloat? with
      | some feature_values =>
        [PrintEvent.predictedLine (inverse (model (scaler feature_values)))]
      | none => [PrintEvent.errorLine "could not convert string to float"])

end RpiApplication

/-! ## `sketch_oct8a/live_predictor.py` -/

namespace LivePredictor

/-- The fields of the `result` dict built by `predict_movement_direction`
that are functions of the payload and models (`timestamp` is wall-clock
time, and `confidence`/`icon` come from optional library introspection;
they are left out of the model). -/
structure LiveResult where
  prediction : String
  received_label : String
  features : List PyFloat
  student_id : String
  deriving DecidableEq, Repr

/-- `scaler.transform(x) if scaler is not None else x`. -/
def applyScaler (scaler : Option (List PyFloat → List PyFloat))
    (fv : List PyFloat) : List PyFloat :=
  match scaler with
  | some f => f fv
  | none => fv

/-- `predict_movement_direction` of `live_predictor.py`.  The global
`prediction_count` is threaded as explicit state.  Parsing follows the
source: split the stripped string on commas; fewer than 12 fields returns
`None`; fields 0–9 must parse as floats and field 9 additionally as an int
(`wrist_armed`), otherwise the inner `except (ValueError, IndexError)`
returns `None` with no print; on success the prediction is
`inverse (model (scaled features))` and the counter is incremented. -/
def predict_movement_direction (model : List PyFloat → Int)
    (scaler : Option (List PyFloat → List PyFloat)) (inverse : Int → String)
    (prediction_count : Nat) (data_string : String) :
    Option LiveResult × Nat :=
  let values := pySplit ',' (pyStrip data_string)
  if values.length < 12 then (none, prediction_count)
  else
    match (values.take 10).mapM pyFloat?, pyInt? (values.getD 9 "") with
    | some feature_values, some _wrist_armed =>
      let features_to_predict := applyScaler scaler feature_values
      let prediction_encoded := model features_to_predict
      let prediction_label := inverse prediction_encoded
      (some ⟨prediction_label, pyStrip (values.getD 10 ""),
             feature_values, pyStrip (values.getD 11 "")⟩,
       prediction_count + 1)
    | _, _ => (none, prediction_count)

/-- `notification_handler` of `live_predictor.py`: strict-decode and strip;
skip empty lines and header lines containing `meanX`; run the predictor; on
success print the prediction line, plus the debug line when the updated
counter is a multiple of 10.  The surrounding `try/except Exception` turns a
decode failure into a printed error line and a normal return. -/
def notification_handler (model : List PyFloat → Int)
    (scaler : Option (List PyFloat → List PyFloat)) (inverse : Int → String)
    (prediction_count : Nat) (p : Payload) : Nat × List PrintEvent :=
  match strictDecode p with
  | Except.error e => (prediction_count, [PrintEvent.errorLine e])
  | Except.ok t =>
    let data_string := pyStrip t
    if data_string = "" || occursIn "meanX" data_string then
      (prediction_count, [])
    else
      match predict_movement_direction model scaler inverse
          prediction_count data_string with
      | (none, c) => (c, [])
      | (some r, c) =>
        (c, PrintEvent.liveLine r.prediction r.received_label ::
            (if c % 10 = 0 then [PrintEvent.debugLine] else []))

end LivePredictor

/-! ## Startup sequencing of the two prediction processes -/

/-- The externally visible startup steps of the prediction scripts. -/
inductive StartupEvent where
  /-- Loading the classifier / scaler / label-encoder bundle. -/
  | loadModels
  /-- `sys.exit(code)` (or, for the application script, dying on the
  uncaught load exception, which also terminates with a nonzero status). -/
  | exitWith (code : Nat)
  /-- BLE device discovery. -/
  | scan
  /-- `client.start_notify(...)`: subscribing to notifications. -/
  | subscribe
  deriving DecidableEq, Repr

/-- Startup of `rpi_application_code.py`: the models are loaded at module
level, before `asyncio.run(main())`; a load failure exits with status 1;
otherwise `main` scans, connects, and only then subscribes. -/
def rpi_startup (modelsLoaded deviceFound connectOk : Bool) :
    List StartupEvent :=
  StartupEvent.loadModels ::
    (if !modelsLoaded then [StartupEvent.exitWith 1]
     else
      StartupEvent.scan ::
        (if !deviceFound then []
         else if !connectOk then []
         else [StartupEvent.subscribe]))

/-- Startup of `live_predictor.py`: `load_model_with_fallback()` runs at
module level; when it returns no model the process calls `sys.exit(1)`;
otherwise `main` scans, connects, checks the service and only then
subscribes. -/
def live_startup (modelLoaded deviceFound connectOk serviceFound : Bool) :
    List StartupEvent :=
  StartupEvent.loadModels ::
    (if !modelLoaded then [StartupEvent.exitWith 1]
     else
      StartupEvent.scan ::
        (if !deviceFound then []
         else if !connectOk then []
         else if !serviceFound then []
         else [StartupEvent.subscribe]))

/-! ## `sketch_oct8a/train_best_model.py` -/

namespace TrainBestModel

/-- One entry of the script's `models` dict: its key and the recorded
metrics.  The fitted estimator object itself is opaque and identified by
`name`. -/
structure ModelEntry where
  name : String
  accuracy : ℚ
  cv_score : ℚ
  uses_scaler : Bool
  deriving DecidableEq, Repr

/-- One comparison step of Python `max(..., key=...)`: keep the current
best unless the challenger is strictly better, so the first maximal
element wins. -/
def pickBest (best x : ModelEntry) : ModelEntry :=
  if best.accuracy < x.accuracy then x else best

/-- `best_name = max(models.keys(), key=lambda k: models[k]['accuracy'])`
together with `best_model_obj = models[best_name]`, over the insertion-order
list of entries.  `joblib.dump(best_model_obj['model'], ...)` saves exactly
this entry's estimator. -/
def bestModel : List ModelEntry → Option ModelEntry
  | [] => none
  | m :: ms => some (ms.foldl pickBest m)

/-- Replace an entry's cross-validation score (used to state that the
selection criterion reads only the accuracy). -/
def setCv (c : ℚ) (m : ModelEntry) : ModelEntry :=
  ⟨m.name, m.accuracy, c, m.uses_scaler⟩

/-- One CSV row as the cleaning step sees it: the 18 feature columns in
order (`none` models a missing value / NaN), the first 9 being the
accelerometer columns, plus the label. -/
structure CsvRow where
  features : List (Option ℚ)
  label : String
  deriving DecidableEq, Repr

/-- `data[feature_columns].notna().all(axis=1)`. -/
def featureComplete (r : CsvRow) : Bool :=
  r.features.all (fun x => x.isSome)

/-- `(data_clean[accel_cols] == 0).all(axis=1)`: every accelerometer cell
compares equal to zero (a NaN cell compares unequal, as in pandas). -/
def accelAllZero (r : CsvRow) : Bool :=
  (r.features.take 9).all (fun x => x == some 0)

/-- The conjunction of the two row filters of the script. -/
def keepRow (r : CsvRow) : Bool := featureComplete r && !accelAllZero r

/-- `data_clean`: drop rows with a missing feature, then drop rows whose
accelerometer features are all zero.  No other row filtering happens before
the train/test split. -/
def data_clean (rows : List CsvRow) : List CsvRow := rows.filter keepRow

end TrainBestModel

/-! ## The label encoder

The scripts call `sklearn.preprocessing.LabelEncoder`, whose code is a
library external to this repository. -/

namespace SkLabelEncoder

/-- Lexicographic comparison of character lists by code point. -/
def charListLe : List Char → List Char → Bool
  | [], _ => true
  | _ :: _, [] => false
  | a :: as, b :: bs => a.toNat < b.toNat || (a = b && charListLe as bs)

/-- Lexicographic comparison of strings by code point. -/
def strLe (a b : String) : Bool := charListLe a.toList b.toList

/-- Insert into a sorted list of class names. -/
def insSorted (x : String) : List String → List String
  | [] => [x]
  | y :: ys => if strLe x y then x :: y :: ys else y :: insSorted x ys

/-- Insertion sort of class names. -/
def sortStrings (l : List String) : List String := l.foldr insSorted []

/-- Modelled from the spec: the scikit-learn `LabelEncoder` (library code,
not in `src/`), whose fitted `classes_` are the distinct training labels in
sorted order (`numpy.unique`). -/
def fitClasses (ys : List String) : List String := sortStrings ys.dedup

/-- Modelled from the spec: `LabelEncoder.transform` on one class name maps
it to its index in `classes_`; an unknown label raises, modelled as `none`. -/
def transform : List String → String → Option Nat
  | [], _ => none
  | x :: xs, c =>
    if c = x then some 0 else (transform xs c).map (fun i => i + 1)

/-- Modelled from the spec: `LabelEncoder.inverse_transform` on one index
looks up `classes_[i]`; an out-of-range index raises, modelled as `none`. -/
def inverse_transform (classes : List String) (i : Nat) : Option String :=
  classes[i]?

end SkLabelEncoder

/-! ## `rpi_application_code/combine_data.py` -/

namespace CombineData

/-- A row of `n11611553_CombinedTrainingData.csv` under its original header
(accelerometer statistics named `meanX` … `rangeZ`). -/
structure InRow where
  meanX : String
  sdX : String
  rangeX : String
  meanY : String
  sdY : String
  rangeY : String
  meanZ : String
  sdZ : String
  rangeZ : String
  meanGx : String
  sdGx : String
  rangeGx : String
  meanGy : String
  sdGy : String
  rangeGy : String
  meanGz : String
  sdGz : String
  rangeGz : String
  label : String
  studentId : String
  deriving DecidableEq, Repr

/-- A row under the combined header (accelerometer statistics renamed to
`meanAx` … `rangeAz`), the shape of `training_data_bert.csv` and of the
output file. -/
structure OutRow where
  meanAx : String
  sdAx : String
  rangeAx : String
  meanAy : String
  sdAy : String
  rangeAy : String
  meanAz : String
  sdAz : String
  rangeAz : String
  meanGx : String
  sdGx : String
  rangeGx : String
  meanGy : String
  sdGy : String
  rangeGy : String
  meanGz : String
  sdGz : String
  rangeGz : String
  label : String
  studentId : String
  deriving DecidableEq, Repr

/-- The per-row transformation applied to the first input file: rename the
nine accelerometer columns (`row['meanAx'] = row.pop('meanX')`, …) and
lower-case the label. -/
def renameRow (r : InRow) : OutRow :=
  ⟨r.meanX, r.sdX, r.rangeX, r.meanY, r.sdY, r.rangeY, r.meanZ, r.sdZ,
   r.rangeZ, r.meanGx, r.sdGx, r.rangeGx, r.meanGy, r.sdGy, r.rangeGy,
   r.meanGz, r.sdGz, r.rangeGz, pyLower r.label, r.studentId⟩

/-- The per-row transformation applied to the second input file: lower-case
the label. -/
def lowerLabel (r : OutRow) : OutRow :=
  ⟨r.meanAx, r.sdAx, r.rangeAx, r.meanAy, r.sdAy, r.rangeAy, r.meanAz,
   r.sdAz, r.rangeAz, r.meanGx, r.sdGx, r.rangeGx, r.meanGy, r.sdGy,
   r.rangeGy, r.meanGz, r.sdGz, r.rangeGz, pyLower r.label, r.studentId⟩

/-- `combined = your_data + bert_data`, after the per-file row
transformations, written out in order by `writer.writerows(combined)`. -/
def combined (yours : List InRow) (berts : List OutRow) : List OutRow :=
  yours.map renameRow ++ berts.map lowerLabel

end CombineData

/-! ## Theorems -/

/-- Claim C3 is refuted on the collector: for a payload whose strict decode
raises inside `parse_reading`, the exception is swallowed (`parse_reading`
returns `None`), and the collector's notification handler returns normally
without printing any error message. -/
theorem C3_counterexample :
    strictDecode ⟨"x", false⟩ = Except.error "UnicodeDecodeError"
    ∧ NodeCollection.parse_reading ⟨"x", false⟩ = none
    ∧ (NodeCollection.handle_notify (fun _ => Except.ok ()) [] ⟨"x", false⟩).2
        = [PrintEvent.notifyLine "x"]
    ∧ (∀ e ∈ (NodeCollection.handle_notify (fun _ => Except.ok ()) [] ⟨"x", false⟩).2,
        e.isError = false) := by
  refine ⟨rfl, rfl, rfl, ?_⟩
  decide

/-- Claim C3 (amended): no exception propagates out of a notification
handler, and every later notification is still processed; but not every
caught exception prints an error message.  The application handler prints
one for every exception its `try` block catches, and the live handler
prints one for exceptions reaching its handler-level `except` (such as a
decode failure); however a float-conversion error during parsing is caught
by the inner `except (ValueError, IndexError)` of
`predict_movement_direction`, which returns `None` silently, so the live
handler prints nothing at all for that payload; and the collector handler
likewise swallows exceptions inside `parse_reading` without printing,
reporting only insertion failures. -/
theorem C3_amended_exceptions_contained
    (model : List PyFloat → Int) (scaler : Option (List PyFloat → List PyFloat))
    (inverse : Int → String) (count : Nat) (p : Payload) (q2 : Payload)
    (sc : List PyFloat → List PyFloat) (mo : List PyFloat → Int)
    (iv : Int → String) (q : Payload)
    (insert : List NodeCollection.ReadingDoc → Except String Unit)
    (buffer : List NodeCollection.ReadingDoc)
    (doc : NodeCollection.ReadingDoc) (e : String) (r : Payload) :
    (p.validUtf8 = false →
      LivePredictor.notification_handler model scaler inverse count p
        = (count, [PrintEvent.errorLine "UnicodeDecodeError"]))
    ∧ (q2.validUtf8 = true →
        (decide (pyStrip q2.text = "") || occursIn "meanX" (pyStrip q2.text)) = false →
        12 ≤ (pySplit ',' (pyStrip (pyStrip q2.text))).length →
        ((pySplit ',' (pyStrip (pyStrip q2.text))).take 10).mapM pyFloat? = none →
        LivePredictor.notification_handler model scaler inverse count q2
          = (count, []))
    ∧ (18 ≤ (RpiApplication.parts (pyStrip q.text)).length →
        ((RpiApplication.parts (pyStrip q.text)).take 18).mapM pyFloat? = none →
        RpiApplication.handle_notify sc mo iv q
          = [PrintEvent.notifyLine (pyStrip q.text),
             PrintEvent.errorLine "could not convert string to float"])
    ∧ (NodeCollection.parse_reading r = some doc →
        insert (buffer ++ [doc]) = Except.error e →
        NodeCollection.handle_notify insert buffer r
          = ([], [PrintEvent.notifyLine (pyStrip r.text), PrintEvent.errorLine e]))
    ∧ (r.validUtf8 = false →
        NodeCollection.handle_notify insert buffer r
          = (buffer, [PrintEvent.notifyLine (pyStrip r.text)])) := by
  refine ⟨?_, ?_, ?_, ?_, ?_⟩
  · intro hv
    simp [LivePredictor.notification_handler, strictDecode, hv]
  · intro hv hskip h12 hfail
    have hpred : LivePredictor.predict_movement_direction model scaler inverse count
        (pyStrip q2.text) = (none, count) := by
      simp only [LivePredictor.predict_movement_direction]
      rw [if_neg (Nat.not_lt.mpr h12), hfail]
    simp [LivePredictor.notification_handler, strictDecode, hv, hskip, hpred]
  · intro h18 hnone
    simp only [RpiApplication.handle_notify]
    rw [if_neg (Nat.not_lt.mpr h18), hnone]
  · intro hdoc hins
    simp [NodeCollection.handle_notify, hdoc, hins, NodeCollection.BATCH_SIZE]
  · intro hv
    have hpr : NodeCollection.parse_reading r = none := by
      simp [NodeCollection.parse_reading, strictDecode, hv]
    simp [NodeCollection.handle_notify, hpr]

/-- Claim C3 (amended, witness): each branch of the amended statement at a
concrete payload. -/
theorem C3_amended_witness :
    LivePredictor.notification_handler (fun _ => 0) none (fun _ => "up") 0 ⟨"x", false⟩
      = (0, [PrintEvent.errorLine "UnicodeDecodeError"])
    ∧ LivePredictor.notification_handler (fun _ => 0) none (fun _ => "up") 0
        ⟨"x,1,1,1,1,1,1,1,1,1,lbl,sid", true⟩ = (0, [])
    ∧ RpiApplication.handle_notify (fun v => v) (fun _ => 0) (fun _ => "up")
        ⟨"z,z,z,z,z,z,z,z,z,z,z,z,z,z,z,z,z,z", true⟩
      = [PrintEvent.notifyLine "z,z,z,z,z,z,z,z,z,z,z,z,z,z,z,z,z,z",
         PrintEvent.errorLine "could not convert string to float"]
    ∧ NodeCollection.handle_notify (fun _ => Except.error "boom") []
        ⟨"1,2,3,4,5,6,7,8,9,10,11,12,13,14,15,16,17,18,up,n1", true⟩
      = ([], [PrintEvent.notifyLine "1,2,3,4,5,6,7,8,9,10,11,12,13,14,15,16,17,18,up,n1",
              PrintEvent.errorLine "boom"])
    ∧ NodeCollection.handle_notify (fun _ => Except.error "boom") [] ⟨"x", false⟩
      = ([], [PrintEvent.notifyLine "x"]) := by
  have h := C3_amended_exceptions_contained (fun _ => 0) none (fun _ => "up") 0
    ⟨"x", false⟩ ⟨"x,1,1,1,1,1,1,1,1,1,lbl,sid", true⟩
    (fun v => v) (fun _ => 0) (fun _ => "up")
    ⟨"z,z,z,z,z,z,z,z,z,z,z,z,z,z,z,z,z,z", true⟩
    (fun _ => Except.error "boom") []
    ⟨"1,2,3,4,5,6,7,8,9,10,11,12,13,14,15,16,17,18,up,n1",
     ["1","2","3","4","5","6","7","8","9","10","11","12","13","14","15","16","17","18","up","n1"]⟩
    "boom" ⟨"1,2,3,4,5,6,7,8,9,10,11,12,13,14,15,16,17,18,up,n1", true⟩
  have h2 := C3_amended_exceptions_contained (fun _ => 0) none (fun _ => "up") 0
    ⟨"x", false⟩ ⟨"x,1,1,1,1,1,1,1,1,1,lbl,sid", true⟩
    (fun v => v) (fun _ => 0) (fun _ => "up")
    ⟨"z,z,z,z,z,z,z,z,z,z,z,z,z,z,z,z,z,z", true⟩
    (fun _ => Except.error "boom") []
    ⟨"", []⟩ "boom" ⟨"x", false⟩
  exact ⟨h.1 rfl, h.2.1 rfl (by decide) (by decide) (by decide),
         h.2.2.1 (by decide) (by decide),
         h.2.2.2.1 (by decide) rfl, h2.2.2.2.2 rfl⟩

/-- Claim C4 is refuted on the live predictor: processing one notification
increments the global `prediction_count` (state carried between callbacks),
and the counter value left by earlier notifications changes the output of a
later one (the periodic debug line). -/
theorem C4_counterexample :
    (LivePredictor.notification_handler (fun _ => 0) none (fun _ => "up") 0
        ⟨"7,7,7,7,7,7,7,7,7,7,a,b", true⟩).1 = 1
    ∧ (LivePredictor.notification_handler (fun _ => 0) none (fun _ => "up") 9
        ⟨"7,7,7,7,7,7,7,7,7,7,a,b", true⟩).2
      ≠ (LivePredictor.notification_handler (fun _ => 0) none (fun _ => "up") 8
        ⟨"7,7,7,7,7,7,7,7,7,7,a,b", true⟩).2 := by
  constructor
  · rfl
  · decide

/-- Claim C4 (amended): the prediction itself is stateless — the optional
result of `predict_movement_direction` and the prediction lines printed by
the handler depend only on the payload and the loaded models, not on the
carried counter; the only state the handler mutates is the prediction
counter, which controls the periodic debug line of later notifications. -/
theorem C4_amended_prediction_stateless
    (model : List PyFloat → Int) (scaler : Option (List PyFloat → List PyFloat))
    (inverse : Int → String) (c c' : Nat) (s : String) (p : Payload) :
    (LivePredictor.predict_movement_direction model scaler inverse c s).1
      = (LivePredictor.predict_movement_direction model scaler inverse c' s).1
    ∧ ((LivePredictor.notification_handler model scaler inverse c p).2.filter
          (fun e => e.isPrediction))
      = ((LivePredictor.notification_handler model scaler inverse c' p).2.filter
          (fun e => e.isPrediction)) := by
  have hpred : ∀ (a b : Nat) (u : String),
      (LivePredictor.predict_movement_direction model scaler inverse a u).1
        = (LivePredictor.predict_movement_direction model scaler inverse b u).1 := by
    intro a b u
    unfold LivePredictor.predict_movement_direction
    rcases Nat.lt_or_ge (pySplit ',' (pyStrip u)).length 12 with hlt | hge
    · simp [hlt]
    · rw [if_neg (Nat.not_lt.mpr hge), if_neg (Nat.not_lt.mpr hge)]
      rcases hx : ((pySplit ',' (pyStrip u)).take 10).mapM pyFloat? with _ | fv
      · simp
      · rcases hy : pyInt? ((pySplit ',' (pyStrip u)).getD 9 "") with _ | w
        · simp
        · simp
  refine ⟨hpred c c' s, ?_⟩
  unfold LivePredictor.notification_handler
  rcases hd : strictDecode p with e | t
  · simp [hd]
  · simp only [hd]
    by_cases hskip : (decide (pyStrip t = "") || occursIn "meanX" (pyStrip t)) = true
    · simp [hskip]
    · simp only [hskip, if_false, Bool.false_eq_true]
      rcases hc1 : LivePredictor.predict_movement_direction model scaler inverse c
          (pyStrip t) with ⟨o1, cc1⟩
      rcases hc2 : LivePredictor.predict_movement_direction model scaler inverse c'
          (pyStrip t) with ⟨o2, cc2⟩
      have ho : o1 = o2 := by
        have hq := hpred c c' (pyStrip t)
        rw [hc1, hc2] at hq
        exact hq
      subst ho
      rcases o1 with _ | r
      · simp
      · by_cases h1 : cc1 % 10 = 0 <;> by_cases h2 : cc2 % 10 = 0 <;>
          simp [h1, h2, PrintEvent.isPrediction]

/-- Claim C7: in both prediction processes the model bundle is loaded
exactly once, as the very first step, before any BLE activity; and when no
model can be loaded the process exits with status 1 without ever scanning or
subscribing. -/
theorem C7_models_loaded_once_before_ble :
    ∀ mf df c sf : Bool,
      ((live_startup mf df c sf).count StartupEvent.loadModels = 1
        ∧ (live_startup mf df c sf).head? = some StartupEvent.loadModels
        ∧ StartupEvent.exitWith 0 ∉ live_startup mf df c sf
        ∧ (mf = false →
            live_startup mf df c sf
              = [StartupEvent.loadModels, StartupEvent.exitWith 1]
            ∧ StartupEvent.subscribe ∉ live_startup mf df c sf
            ∧ StartupEvent.scan ∉ live_startup mf df c sf))
      ∧ ((rpi_startup mf df c).count StartupEvent.loadModels = 1
        ∧ (rpi_startup mf df c).head? = some StartupEvent.loadModels
        ∧ StartupEvent.exitWith 0 ∉ rpi_startup mf df c
        ∧ (mf = false →
            rpi_startup mf df c = [StartupEvent.loadModels, StartupEvent.exitWith 1]
            ∧ StartupEvent.subscribe ∉ rpi_startup mf df c
            ∧ StartupEvent.scan ∉ rpi_startup mf df c)) := by
  intro mf df c sf
  cases mf <;> cases df <;> cases c <;> cases sf <;> decide

/-- Claim C7 (witness): the failure branch at a concrete flag assignment. -/
theorem C7_witness :
    live_startup false true true true
      = [StartupEvent.loadModels, StartupEvent.exitWith 1]
    ∧ StartupEvent.subscribe ∉ live_startup false true true true
    ∧ StartupEvent.scan ∉ live_startup false true true true :=
  (C7_models_loaded_once_before_ble false true true true).1.2.2.2 rfl

/-- Claim C8: in the live predictor the tenth comma-separated field is parsed
both as a float feature and as the integer `wristArmed` flag; on a payload
with at least 12 fields whose first ten fields all parse as floats but whose
tenth is not a valid integer literal, `predict_movement_direction` makes no
prediction and returns `None`. -/
theorem C8_wrist_armed_dual_parse
    (model : List PyFloat → Int) (scaler : Option (List PyFloat → List PyFloat))
    (inverse : Int → String) (count : Nat) (s : String)
    (h12 : 12 ≤ (pySplit ',' (pyStrip s)).length)
    (hfloats : (((pySplit ',' (pyStrip s)).take 10).mapM pyFloat?).isSome = true)
    (hint : pyInt? ((pySplit ',' (pyStrip s)).getD 9 "") = none) :
    LivePredictor.predict_movement_direction model scaler inverse count s
      = (none, count) := by
  obtain ⟨fv, hfv⟩ := Option.isSome_iff_exists.mp hfloats
  simp only [LivePredictor.predict_movement_direction]
  rw [if_neg (Nat.not_lt.mpr h12), hfv, hint]

/-- Claim C8 (witness): the payload `1,2,3,4,5,6,7,8,9,0.5,up,n1` is
well-formed except that its tenth field `0.5` is a float but not an integer
literal. -/
theorem C8_witness :
    LivePredictor.predict_movement_direction (fun _ => 0) none (fun _ => "up") 5
      "1,2,3,4,5,6,7,8,9,0.5,up,n1" = (none, 5) :=
  C8_wrist_armed_dual_parse (fun _ => 0) none (fun _ => "up") 5
    "1,2,3,4,5,6,7,8,9,0.5,up,n1" (by decide) (by decide) (by decide)

/-- Claim C9: the training script keeps a CSV row if and only if all 18
feature columns are present and the nine accelerometer columns are not all
zero; no other filtering happens before the train/test split. -/
theorem C9_training_row_filter (rows : List TrainBestModel.CsvRow)
    (r : TrainBestModel.CsvRow) :
    r ∈ TrainBestModel.data_clean rows ↔
      r ∈ rows ∧ (∀ x ∈ r.features, x.isSome = true)
        ∧ ¬(∀ x ∈ r.features.take 9, x = some 0) := by
  simp [TrainBestModel.data_clean, List.mem_filter, TrainBestModel.keepRow,
    TrainBestModel.featureComplete, TrainBestModel.accelAllZero,
    List.all_eq_true, and_assoc]

/-- Claim C9 (witness): a complete, nonzero row is kept. -/
theorem C9_witness :
    TrainBestModel.CsvRow.mk (List.replicate 18 (some 1)) "up"
      ∈ TrainBestModel.data_clean [TrainBestModel.CsvRow.mk (List.replicate 18 (some 1)) "up"] :=
  (C9_training_row_filter
    [TrainBestModel.CsvRow.mk (List.replicate 18 (some 1)) "up"]
    (TrainBestModel.CsvRow.mk (List.replicate 18 (some 1)) "up")).mpr
    ⟨by decide, by decide, by decide⟩

/-- Claim C1: on a well-formed payload each prediction handler decodes,
parses a fixed-width feature vector, optionally scales it, invokes the
classifier and maps the encoded class through the label encoder — the
printed/returned prediction is exactly
`inverse_transform (model.predict (scaled features))`. -/
theorem C1_notification_pipeline
    (scaler : List PyFloat → List PyFloat) (model : List PyFloat → Int)
    (inverse : Int → String)
    (optScaler : Option (List PyFloat → List PyFloat))
    (model2 : List PyFloat → Int) (inverse2 : Int → String)
    (p : Payload) (fv : List PyFloat) (count : Nat) (s : String)
    (gv : List PyFloat) (w : Int)
    (h18 : 18 ≤ (RpiApplication.parts (pyStrip p.text)).length)
    (hfv : ((RpiApplication.parts (pyStrip p.text)).take 18).mapM pyFloat? = some fv)
    (h12 : 12 ≤ (pySplit ',' (pyStrip s)).length)
    (hgv : ((pySplit ',' (pyStrip s)).take 10).mapM pyFloat? = some gv)
    (hw : pyInt? ((pySplit ',' (pyStrip s)).getD 9 "") = some w) :
    RpiApplication.handle_notify scaler model inverse p =
      [PrintEvent.notifyLine (pyStrip p.text),
       PrintEvent.predictedLine (inverse (model (scaler fv)))]
    ∧ (LivePredictor.predict_movement_direction model2 optScaler inverse2 count s).1
      = some ⟨inverse2 (model2 (LivePredictor.applyScaler optScaler gv)),
              pyStrip ((pySplit ',' (pyStrip s)).getD 10 ""), gv,
              pyStrip ((pySplit ',' (pyStrip s)).getD 11 "")⟩ := by
  constructor
  · simp only [RpiApplication.handle_notify]
    rw [if_neg (Nat.not_lt.mpr h18), hfv]
  · simp only [LivePredictor.predict_movement_direction]
    rw [if_neg (Nat.not_lt.mpr h12), hgv, hw]

/-- Claim C1 (witness): a concrete 20-field application payload and a
concrete 12-field live payload, with a concrete classifier and encoder. -/
theorem C1_witness :
    RpiApplication.handle_notify (fun v => v) (fun _ => 2)
      (fun i => if i = 2 then "up" else "down")
      ⟨"7,7,7,7,7,7,7,7,7,7,7,7,7,7,7,7,7,7,x,y", true⟩ =
      [PrintEvent.notifyLine "7,7,7,7,7,7,7,7,7,7,7,7,7,7,7,7,7,7,x,y",
       PrintEvent.predictedLine
         (if (2 : Int) = 2 then "up" else "down")]
    ∧ (LivePredictor.predict_movement_direction (fun _ => 2) none
        (fun i => if i = 2 then "up" else "down") 0 "7,7,7,7,7,7,7,7,7,7,a,b").1
      = some ⟨if (2 : Int) = 2 then "up" else "down",
              pyStrip ((pySplit ',' (pyStrip "7,7,7,7,7,7,7,7,7,7,a,b")).getD 10 ""),
              List.replicate 10 ⟨false, 7, 0⟩,
              pyStrip ((pySplit ',' (pyStrip "7,7,7,7,7,7,7,7,7,7,a,b")).getD 11 "")⟩ := by
  have h := C1_notification_pipeline (fun v => v) (fun _ => 2)
    (fun i => if i = 2 then "up" else "down") none (fun _ => 2)
    (fun i => if i = 2 then "up" else "down")
    ⟨"7,7,7,7,7,7,7,7,7,7,7,7,7,7,7,7,7,7,x,y", true⟩
    (List.replicate 18 ⟨false, 7, 0⟩) 0 "7,7,7,7,7,7,7,7,7,7,a,b"
    (List.replicate 10 ⟨false, 7, 0⟩) 7
    (by decide) (by decide) (by decide) (by decide) (by decide)
  exact h

/-- Claim C2: each parser rejects payloads without the required number of
fields — `parse_reading` stores no document unless there are exactly 20
fields, the application handler prints no prediction when fewer than 18
fields are present, and the live predictor returns `None` (and leaves the
counter unchanged) when fewer than 12 fields are present. -/
theorem C2_parser_field_requirements
    (p q : Payload) (s : String)
    (scaler : List PyFloat → List PyFloat) (model : List PyFloat → Int)
    (inverse : Int → String) (model2 : List PyFloat → Int)
    (optScaler : Option (List PyFloat → List PyFloat)) (inverse2 : Int → String)
    (count : Nat) :
    ((NodeCollection.fields (pyStrip p.text)).length ≠ 20 →
      NodeCollection.parse_reading p = none)
    ∧ ((RpiApplication.parts (pyStrip q.text)).length < 18 →
        ∀ e ∈ RpiApplication.handle_notify scaler model inverse q,
          e.isPrediction = false)
    ∧ ((pySplit ',' (pyStrip s)).length < 12 →
        LivePredictor.predict_movement_direction model2 optScaler inverse2 count s
          = (none, count)) := by
  refine ⟨?_, ?_, ?_⟩
  · intro h20
    unfold NodeCollection.parse_reading strictDecode
    by_cases hv : p.validUtf8 = true
    · simp [hv, h20]
    · simp [hv]
  · intro h18 e he
    simp only [RpiApplication.handle_notify, h18, if_true, List.mem_cons,
      List.mem_singleton] at he
    rcases he with he | he | he
    · subst he; rfl
    · subst he; rfl
    · cases he
  · intro hlt
    simp only [LivePredictor.predict_movement_direction]
    rw [if_pos hlt]

/-- Claim C2 (witness): a 3-field payload is stored by neither parser and a
2-field payload yields no live prediction. -/
theorem C2_witness :
    NodeCollection.parse_reading ⟨"1,2,3", true⟩ = none
    ∧ (∀ e ∈ RpiApplication.handle_notify (fun v => v) (fun _ => 0)
        (fun _ => "up") ⟨"1,2,3", true⟩, e.isPrediction = false)
    ∧ LivePredictor.predict_movement_direction (fun _ => 0) none
        (fun _ => "up") 3 "1,2" = (none, 3) := by
  have h := C2_parser_field_requirements ⟨"1,2,3", true⟩ ⟨"1,2,3", true⟩ "1,2"
    (fun v => v) (fun _ => 0) (fun _ => "up") (fun _ => 0) none (fun _ => "up") 3
  exact ⟨h.1 (by decide), h.2.1 (by decide), h.2.2 (by decide)⟩

/-- Inserting into a sorted list is a permutation of consing. -/
lemma SkLabelEncoder.insSorted_perm (x : String) (l : List String) :
    List.Perm (SkLabelEncoder.insSorted x l) (x :: l) := by
  induction l with
  | nil => exact List.Perm.refl _
  | cons y ys ih =>
    by_cases h : SkLabelEncoder.strLe x y = true
    · simp only [SkLabelEncoder.insSorted, if_pos h]
      exact List.Perm.refl _
    · simp only [SkLabelEncoder.insSorted, if_neg h]
      exact (ih.cons y).trans (List.Perm.swap x y ys)

/-- Insertion sort permutes its input. -/
lemma SkLabelEncoder.sortStrings_perm (l : List String) :
    List.Perm (SkLabelEncoder.sortStrings l) l := by
  induction l with
  | nil => exact List.Perm.refl _
  | cons a l ih =>
    exact (SkLabelEncoder.insSorted_perm a (SkLabelEncoder.sortStrings l)).trans
      (ih.cons a)

/-- The fitted classes are distinct. -/
lemma SkLabelEncoder.fitClasses_nodup (ys : List String) :
    (SkLabelEncoder.fitClasses ys).Nodup :=
  ((SkLabelEncoder.sortStrings_perm ys.dedup).nodup_iff).mpr (List.nodup_dedup ys)

/-- A member of the class list is encoded to an index that looks back up to
itself. -/
lemma SkLabelEncoder.transform_of_mem (l : List String) (c : String) (h : c ∈ l) :
    ∃ i, SkLabelEncoder.transform l c = some i ∧ l[i]? = some c := by
  induction l with
  | nil => cases h
  | cons x xs ih =>
    by_cases hc : c = x
    · exact ⟨0, by simp [SkLabelEncoder.transform, hc], by simp [hc]⟩
    · have hm : c ∈ xs := by
        rcases List.mem_cons.mp h with h1 | h1
        · exact absurd h1 hc
        · exact h1
      obtain ⟨i, h1, h2⟩ := ih hm
      exact ⟨i + 1, by simp [SkLabelEncoder.transform, hc, h1], by simpa using h2⟩

/-- On a duplicate-free class list, encoding the i-th class gives i. -/
lemma SkLabelEncoder.transform_getElem (l : List String) (hnd : l.Nodup)
    (i : Nat) (h : i < l.length) : SkLabelEncoder.transform l l[i] = some i := by
  induction l generalizing i with
  | nil => simp at h
  | cons x xs ih =>
    rcases i with _ | i
    · simp [SkLabelEncoder.transform]
    · have hlen : i < xs.length := by simpa using h
      have hx : xs[i] ≠ x := by
        intro hEq
        exact (List.nodup_cons.mp hnd).1 (hEq ▸ List.getElem_mem hlen)
      simp [SkLabelEncoder.transform, hx,
        ih (List.nodup_cons.mp hnd).2 i hlen]

/-- Claim C5: the fitted label encoder is a bijection between class names
and indices — `inverse_transform` after `transform` is the identity on the
fitted classes, and `transform` after `inverse_transform` is the identity
on in-range indices. -/
theorem C5_label_encoder_round_trip (ys : List String) :
    (∀ c ∈ SkLabelEncoder.fitClasses ys,
      (SkLabelEncoder.transform (SkLabelEncoder.fitClasses ys) c).bind
        (SkLabelEncoder.inverse_transform (SkLabelEncoder.fitClasses ys)) = some c)
    ∧ (∀ i, i < (SkLabelEncoder.fitClasses ys).length →
      (SkLabelEncoder.inverse_transform (SkLabelEncoder.fitClasses ys) i).bind
        (fun c => SkLabelEncoder.transform (SkLabelEncoder.fitClasses ys) c)
          = some i) := by
  constructor
  · intro c hc
    obtain ⟨i, h1, h2⟩ := SkLabelEncoder.transform_of_mem _ c hc
    simp [h1, SkLabelEncoder.inverse_transform, h2]
  · intro i hi
    have h1 : SkLabelEncoder.inverse_transform (SkLabelEncoder.fitClasses ys) i
        = some (SkLabelEncoder.fitClasses ys)[i] := by
      simp [SkLabelEncoder.inverse_transform, List.getElem?_eq_getElem hi]
    rw [h1]
    simp [SkLabelEncoder.transform_getElem _ (SkLabelEncoder.fitClasses_nodup ys) i hi]

/-- Claim C5 (witness): round trips on the classes fitted from
`up, down, left, up`. -/
theorem C5_witness :
    ((SkLabelEncoder.transform (SkLabelEncoder.fitClasses ["up", "down", "left", "up"]) "down").bind
      (SkLabelEncoder.inverse_transform (SkLabelEncoder.fitClasses ["up", "down", "left", "up"]))
        = some "down")
    ∧ ((SkLabelEncoder.inverse_transform (SkLabelEncoder.fitClasses ["up", "down", "left", "up"]) 2).bind
      (fun c => SkLabelEncoder.transform (SkLabelEncoder.fitClasses ["up", "down", "left", "up"]) c)
        = some 2) :=
  ⟨(C5_label_encoder_round_trip ["up", "down", "left", "up"]).1 "down" (by decide),
   (C5_label_encoder_round_trip ["up", "down", "left", "up"]).2 2 (by decide)⟩

/-- One comparison step never lowers the accuracy below the current best. -/
lemma TrainBestModel.pickBest_left (b x : TrainBestModel.ModelEntry) :
    b.accuracy ≤ (TrainBestModel.pickBest b x).accuracy := by
  by_cases h : b.accuracy < x.accuracy
  · simp only [TrainBestModel.pickBest, if_pos h]
    exact le_of_lt h
  · simp only [TrainBestModel.pickBest, if_neg h]
    exact le_refl _

/-- One comparison step never lowers the accuracy below the challenger. -/
lemma TrainBestModel.pickBest_right (b x : TrainBestModel.ModelEntry) :
    x.accuracy ≤ (TrainBestModel.pickBest b x).accuracy := by
  by_cases h : b.accuracy < x.accuracy
  · simp only [TrainBestModel.pickBest, if_pos h]
    exact le_refl _
  · simp only [TrainBestModel.pickBest, if_neg h]
    exact le_of_not_lt h

/-- One comparison step picks one of its two arguments. -/
lemma TrainBestModel.pickBest_cases (b x : TrainBestModel.ModelEntry) :
    TrainBestModel.pickBest b x = b ∨ TrainBestModel.pickBest b x = x := by
  by_cases h : b.accuracy < x.accuracy
  · right; simp only [TrainBestModel.pickBest, if_pos h]
  · left; simp only [TrainBestModel.pickBest, if_neg h]

/-- The winner of the fold is the seed or one of the candidates. -/
lemma TrainBestModel.foldl_pickBest_mem (ms : List TrainBestModel.ModelEntry)
    (b : TrainBestModel.ModelEntry) :
    ms.foldl TrainBestModel.pickBest b = b
      ∨ ms.foldl TrainBestModel.pickBest b ∈ ms := by
  induction ms generalizing b with
  | nil => left; rfl
  | cons x ms ih =>
    simp only [List.foldl_cons]
    rcases ih (TrainBestModel.pickBest b x) with h | h
    · rcases TrainBestModel.pickBest_cases b x with h2 | h2
      · left; rw [h, h2]
      · right; rw [h, h2]; exact List.mem_cons_self x ms
    · right; exact List.mem_cons_of_mem x h

/-- The fold's winner is at least as accurate as the seed. -/
lemma TrainBestModel.foldl_pickBest_le (ms : List TrainBestModel.ModelEntry)
    (b : TrainBestModel.ModelEntry) :
    b.accuracy ≤ (ms.foldl TrainBestModel.pickBest b).accuracy := by
  induction ms generalizing b with
  | nil => exact le_refl _
  | cons x ms ih =>
    simp only [List.foldl_cons]
    exact le_trans (TrainBestModel.pickBest_left b x)
      (ih (TrainBestModel.pickBest b x))

/-- The fold's winner is at least as accurate as every candidate. -/
lemma TrainBestModel.foldl_pickBest_ge (ms : List TrainBestModel.ModelEntry)
    (b : TrainBestModel.ModelEntry) :
    ∀ m ∈ ms, m.accuracy ≤ (ms.foldl TrainBestModel.pickBest b).accuracy := by
  induction ms generalizing b with
  | nil =>
    intro m hm
    cases hm
  | cons x ms ih =>
    intro m hm
    simp only [List.foldl_cons]
    rcases List.mem_cons.mp hm with h | h
    · subst h
      exact le_trans (TrainBestModel.pickBest_right b m)
        (TrainBestModel.foldl_pickBest_le ms (TrainBestModel.pickBest b m))
    · exact ih (TrainBestModel.pickBest b x) m h

/-- The fold commutes with rewriting every cross-validation score: the
comparison reads only the accuracy. -/
lemma TrainBestModel.foldl_pickBest_setCv (c : ℚ)
    (ms : List TrainBestModel.ModelEntry) (b : TrainBestModel.ModelEntry) :
    (ms.map (TrainBestModel.setCv c)).foldl TrainBestModel.pickBest
        (TrainBestModel.setCv c b)
      = TrainBestModel.setCv c (ms.foldl TrainBestModel.pickBest b) := by
  induction ms generalizing b with
  | nil => rfl
  | cons x ms ih =>
    simp only [List.map_cons, List.foldl_cons]
    have hstep : TrainBestModel.pickBest (TrainBestModel.setCv c b)
        (TrainBestModel.setCv c x) = TrainBestModel.setCv c (TrainBestModel.pickBest b x) := by
      by_cases h : b.accuracy < x.accuracy <;>
        simp [TrainBestModel.pickBest, TrainBestModel.setCv, h]
    rw [hstep]
    exact ih (TrainBestModel.pickBest b x)

/-- Claim C6: among the successfully trained candidates the saved model is
one whose held-out test accuracy is maximal, and the selection criterion is
the accuracy alone — replacing every cross-validation score leaves the
chosen name unchanged. -/
theorem C6_best_model_by_accuracy (ms : List TrainBestModel.ModelEntry)
    (h : ms ≠ []) :
    ∃ b, TrainBestModel.bestModel ms = some b ∧ b ∈ ms
      ∧ (∀ m ∈ ms, m.accuracy ≤ b.accuracy)
      ∧ (∀ c : ℚ, (TrainBestModel.bestModel (ms.map (TrainBestModel.setCv c))).map
          TrainBestModel.ModelEntry.name = some b.name) := by
  rcases ms with _ | ⟨m, tl⟩
  · exact absurd rfl h
  · refine ⟨tl.foldl TrainBestModel.pickBest m, rfl, ?_, ?_, ?_⟩
    · rcases TrainBestModel.foldl_pickBest_mem tl m with h1 | h1
      · rw [h1]; exact List.mem_cons_self m tl
      · exact List.mem_cons_of_mem m h1
    · intro x hx
      rcases List.mem_cons.mp hx with h1 | h1
      · subst h1; exact TrainBestModel.foldl_pickBest_le tl x
      · exact TrainBestModel.foldl_pickBest_ge tl m x h1
    · intro c
      simp only [List.map_cons, TrainBestModel.bestModel]
      rw [TrainBestModel.foldl_pickBest_setCv c tl m]
      rfl

/-- Claim C6 (witness): among a Random Forest entry and a more accurate SVM
entry (with a lower cross-validation score), the SVM is selected. -/
theorem C6_witness :
    ([⟨"Random Forest", 3, 9, false⟩, ⟨"SVM RBF", 5, 1, true⟩]
        : List TrainBestModel.ModelEntry) ≠ []
    ∧ ∃ b, TrainBestModel.bestModel
          [⟨"Random Forest", 3, 9, false⟩, ⟨"SVM RBF", 5, 1, true⟩] = some b
        ∧ b ∈ ([⟨"Random Forest", 3, 9, false⟩, ⟨"SVM RBF", 5, 1, true⟩]
            : List TrainBestModel.ModelEntry)
        ∧ (∀ m ∈ ([⟨"Random Forest", 3, 9, false⟩, ⟨"SVM RBF", 5, 1, true⟩]
            : List TrainBestModel.ModelEntry), m.accuracy ≤ b.accuracy)
        ∧ (∀ c : ℚ, (TrainBestModel.bestModel
            (([⟨"Random Forest", 3, 9, false⟩, ⟨"SVM RBF", 5, 1, true⟩]
              : List TrainBestModel.ModelEntry).map (TrainBestModel.setCv c))).map
            TrainBestModel.ModelEntry.name = some b.name) :=
  ⟨by simp, C6_best_model_by_accuracy
    [⟨"Random Forest", 3, 9, false⟩, ⟨"SVM RBF", 5, 1, true⟩] (by simp)⟩

/-- Claim C10: the combination script's output rows are exactly the rows of
the first file (accelerometer columns renamed, label lower-cased) followed
by the rows of the second file (label lower-cased), in order, and the
combined row count is the sum of the input row counts. -/
theorem C10_combined_rows (yours : List CombineData.InRow)
    (berts : List CombineData.OutRow) :
    (CombineData.combined yours berts).length = yours.length + berts.length
    ∧ (∀ i (h : i < yours.length),
        (CombineData.combined yours berts)[i]?
          = some (CombineData.renameRow yours[i]))
    ∧ (∀ j (h : j < berts.length),
        (CombineData.combined yours berts)[yours.length + j]?
          = some (CombineData.lowerLabel berts[j])) := by
  refine ⟨by simp [CombineData.combined], ?_, ?_⟩
  · intro i h
    simp only [CombineData.combined]
    rw [List.getElem?_append]
    rw [if_pos (by simpa using h)]
    rw [List.getElem?_map]
    rw [List.getElem?_eq_getElem h]
    rfl
  · intro j h
    simp only [CombineData.combined]
    have hlen : yours.length = (yours.map CombineData.renameRow).length := by simp
    rw [hlen]
    simp [List.getElem?_append_right, List.getElem?_map, List.getElem?_eq_getElem h]

/-- Claim C10 (witness): one row from each input file. -/
theorem C10_witness :
    (CombineData.combined
        [⟨"1", "2", "3", "4", "5", "6", "7", "8", "9", "a", "b", "c", "d", "e",
          "f", "g", "h", "i", "UP", "s1"⟩]
        [⟨"1", "2", "3", "4", "5", "6", "7", "8", "9", "a", "b", "c", "d", "e",
          "f", "g", "h", "i", "Down", "s2"⟩]).length = 1 + 1
    ∧ (CombineData.combined
        [⟨"1", "2", "3", "4", "5", "6", "7", "8", "9", "a", "b", "c", "d", "e",
          "f", "g", "h", "i", "UP", "s1"⟩]
        [⟨"1", "2", "3", "4", "5", "6", "7", "8", "9", "a", "b", "c", "d", "e",
          "f", "g", "h", "i", "Down", "s2"⟩])[0]?
      = some (CombineData.renameRow
          ⟨"1", "2", "3", "4", "5", "6", "7", "8", "9", "a", "b", "c", "d", "e",
           "f", "g", "h", "i", "UP", "s1"⟩)
    ∧ (CombineData.combined
        [⟨"1", "2", "3", "4", "5", "6", "7", "8", "9", "a", "b", "c", "d", "e",
          "f", "g", "h", "i", "UP", "s1"⟩]
        [⟨"1", "2", "3", "4", "5", "6", "7", "8", "9", "a", "b", "c", "d", "e",
          "f", "g", "h", "i", "Down", "s2"⟩])[1]?
      = some (CombineData.lowerLabel
          ⟨"1", "2", "3", "4", "5", "6", "7", "8", "9", "a", "b", "c", "d", "e",
           "f", "g", "h", "i", "Down", "s2"⟩) := by
  have h := C10_combined_rows
    [⟨"1", "2", "3", "4", "5", "6", "7", "8", "9", "a", "b", "c", "d", "e",
      "f", "g", "h", "i", "UP", "s1"⟩]
    [⟨"1", "2", "3", "4", "5", "6", "7", "8", "9", "a", "b", "c", "d", "e",
      "f", "g", "h", "i", "Down", "s2"⟩]
  exact ⟨h.1, h.2.1 0 (by decide), h.2.2 0 (by decide)⟩
